import Mathlib

set_option linter.unusedVariables false

/-!
Shallow embedding of synapse/handlers/pagination.py: the PurgeStatus record,
the PaginationHandler state (purge status table, in-progress purge set,
scheduled status-table cleanups, dispatched background purges), the retention
sweep, history purges, whole-room purges, message pagination, and the
per-room reader/writer lock.

Collaborators that live outside the handler (storage, auth, federation,
serialization) are modelled as explicit function-valued parameters; the
handler logic itself is translated line by line from the source.
-/

abbrev RoomId := String

abbrev PurgeId := String

/-- Error raised by the handler: models synapse.api.errors.SynapseError,
which carries an HTTP status code and a message. -/
structure SynError where
  code : Nat
  msg : String
  deriving DecidableEq, Repr

deriving instance DecidableEq for Except

/-- Status values of a purge: models PurgeStatus.STATUS_ACTIVE,
STATUS_COMPLETE and STATUS_FAILED (pagination.py lines 47-49); a fresh
PurgeStatus object starts as STATUS_ACTIVE (line 58). -/
inductive PStatus where
  | active
  | complete
  | failed
  deriving DecidableEq, Repr

/-- One background invocation of the internal purge routine, as dispatched by
run_as_background_process (retention sweep, line 185) or run_in_background
(start_purge_history, line 214): the arguments handed to the background task. -/
structure PurgeLaunch where
  purge_id : PurgeId
  room_id : RoomId
  token : String
  delete_local_events : Bool
  deriving DecidableEq, Repr

/-- Mutable state of a PaginationHandler that the purge-side code touches:
the purge-id to status table, the set of rooms with a purge in progress, the
reactor timers scheduled by callLater for status-table cleanup (fire time in
reactor seconds, paired with the purge id to delete), and the log of
background purge tasks dispatched so far. -/
structure HState where
  purges_by_id : List (PurgeId × PStatus)
  in_progress : List RoomId
  scheduled : List (Int × PurgeId)
  dispatched : List PurgeLaunch
  deriving DecidableEq, Repr

/-- Lookup in the purge status table; first match wins, so consing a pair
onto the front models a Python dict overwrite of that key. -/
def statusLookup : List (PurgeId × PStatus) → PurgeId → Option PStatus
  | [], _ => none
  | (p, v) :: rest, q => if p = q then some v else statusLookup rest q

/-- Status of the given purge id in the handler state. -/
def statusOf (s : HState) (pid : PurgeId) : Option PStatus :=
  statusLookup s.purges_by_id pid

/-- Models the Python assignment of a new status to an existing PurgeStatus
object (lines 240 and 246): the entry for the given purge id is updated in
place, entries of other ids are untouched, and a missing id stays missing. -/
def set_purge_status : List (PurgeId × PStatus) → PurgeId → PStatus →
    List (PurgeId × PStatus)
  | [], _, _ => []
  | (p, v) :: rest, pid, st =>
    (if p = pid then (p, st) else (p, v)) :: set_purge_status rest pid st

/-- Models del purges_by_id[purge_id] (line 252): every entry of the key is
removed. -/
def purge_table_remove : List (PurgeId × PStatus) → PurgeId →
    List (PurgeId × PStatus)
  | [], _ => []
  | (p, v) :: rest, pid =>
    if p = pid then purge_table_remove rest pid
    else (p, v) :: purge_table_remove rest pid

/-- Models set.discard on the in-progress room set (line 248). -/
def set_discard : List RoomId → RoomId → List RoomId
  | [], _ => []
  | r :: rest, room =>
    if r = room then set_discard rest room else r :: set_discard rest room

/-- Removal of a fired timer from the pending-timer list. -/
def timers_remove : List (Int × PurgeId) → Int × PurgeId → List (Int × PurgeId)
  | [], _ => []
  | e :: rest, x =>
    if e = x then timers_remove rest x else e :: timers_remove rest x

/-- Models purges_by_id[purge_id] = PurgeStatus() (lines 176 and 213): a new
Active entry is installed for the purge id. -/
def create_purge_status (s : HState) (pid : PurgeId) : HState :=
  { s with purges_by_id := (pid, PStatus.active) :: s.purges_by_id }

/-- Models the body of the internal purge routine (lines 219-254): add the
room to the in-progress set, take the write lock, run the storage purge
(its outcome is the boolean ok), set the status to Complete on success and
Failed on exception, then in the finally block discard the room from the
in-progress set and schedule a status-table cleanup 24 * 3600 reactor
seconds after completion.  now is the reactor time at completion. -/
def run_purge_history (s : HState) (pid : PurgeId) (room : RoomId) (ok : Bool)
    (now : Int) : HState :=
  let s1 := { s with in_progress :=
      if room ∈ s.in_progress then s.in_progress else room :: s.in_progress }
  let st := if ok then PStatus.complete else PStatus.failed
  let s2 := { s1 with purges_by_id := set_purge_status s1.purges_by_id pid st }
  { s2 with in_progress := set_discard s2.in_progress room,
            scheduled := (now + 24 * 3600, pid) :: s2.scheduled }

/-- Models the scheduled clear_purge callback (lines 251-254) firing at
reactor time t: if a cleanup for this purge id was scheduled at t, delete the
status-table entry and consume the timer; otherwise nothing happens. -/
def fire_clear (s : HState) (t : Int) (pid : PurgeId) : HState :=
  if (t, pid) ∈ s.scheduled then
    { s with purges_by_id := purge_table_remove s.purges_by_id pid,
             scheduled := timers_remove s.scheduled (t, pid) }
  else s

/-- Models start_purge_history (lines 189-217).  The purge id is the value
returned by the random_string collaborator.  If the room already has a purge
in progress a 400 SynapseError is raised before any mutation; otherwise an
Active status entry is created, the internal purge routine is dispatched in
the background with the caller's delete_local_events flag (default False),
and the purge id is returned. -/
def start_purge_history (s : HState) (pid : PurgeId) (room_id : RoomId)
    (token : String) (delete_local_events : Bool := false) :
    Except SynError PurgeId × HState :=
  if room_id ∈ s.in_progress then
    (Except.error ⟨400, "History purge already in progress for " ++ room_id⟩, s)
  else
    let s1 := { s with purges_by_id := (pid, PStatus.active) :: s.purges_by_id }
    let s2 := { s1 with dispatched :=
        s1.dispatched ++ [⟨pid, room_id, token, delete_local_events⟩] }
    (Except.ok pid, s2)

/-- Storage collaborator interface used by the retention sweep
(get_rooms_for_retention_period_in_range, find_first_stream_ordering_after_ts
and get_room_event_after_stream_ordering).  The last returns the triple the
handler unpacks as (stream, topo, event_id) on line 171. -/
structure RetentionStorage where
  get_rooms_for_retention_period_in_range :
    Option Int → Option Int → Bool → List (RoomId × Option Int)
  find_first_stream_ordering_after_ts : Int → Int
  get_room_event_after_stream_ordering : RoomId → Int → Option (Int × Int × String)

/-- Models lines 120-131: whether rooms with a null retention policy are
included in the storage query, given the configured default max lifetime and
the job range (min_ms, max_ms]. -/
def include_null_calc (retention_default_max_lifetime : Option Int)
    (min_ms max_ms : Option Int) : Bool :=
  match retention_default_max_lifetime with
  | none => false
  | some d =>
    let include_null := true
    let include_null :=
      match min_ms with
      | some m => if m ≥ d then false else include_null
      | none => include_null
    let include_null :=
      match max_ms with
      | some mx => if mx < d then false else include_null
      | none => include_null
    include_null

/-- Models lines 146-152: the room's own max_lifetime, falling back to the
configured default when the room's value is null. -/
def effective_max_lifetime (default_lifetime : Option Int) :
    Option Int → Option Int
  | some l => some l
  | none => default_lifetime

/-- Models one iteration of the retention sweep loop (lines 137-187) for a
room returned by the storage query, with its retention policy value.  A room
already mid-purge is skipped; when both the room policy and the default are
null the Python subtraction on line 155 raises a TypeError, modelled as the
outer none; when storage finds no event at or after the resolved stream
ordering the room is skipped with a warning; otherwise an Active status is
registered under the fresh purge id pid and a background purge is dispatched
with token t<topo>-<stream> and delete_local_events True. -/
def retention_process_room (st : RetentionStorage)
    (default_lifetime : Option Int) (now : Int) (pid : PurgeId)
    (room_id : RoomId) (policy : Option Int) (s : HState) : Option HState :=
  if room_id ∈ s.in_progress then some s
  else
    match effective_max_lifetime default_lifetime policy with
    | none => none
    | some max_lifetime =>
      let ts := now - max_lifetime
      let stream_ordering := st.find_first_stream_ordering_after_ts ts
      match st.get_room_event_after_stream_ordering room_id stream_ordering with
      | none => some s
      | some (stream, topo, _event_id) =>
        let token := "t" ++ toString topo ++ "-" ++ toString stream
        let s1 := { s with purges_by_id := (pid, PStatus.active) :: s.purges_by_id }
        some { s1 with dispatched :=
            s1.dispatched ++ [⟨pid, room_id, token, true⟩] }

/-- Helper fold for the retention sweep: process each returned room in order,
drawing a fresh purge id for each from the supplied stream of ids. -/
def retention_sweep_go (st : RetentionStorage) (default_lifetime : Option Int)
    (now : Int) : List ((RoomId × Option Int) × PurgeId) → HState → Option HState
  | [], s => some s
  | ((room_id, policy), pid) :: rest, s =>
    match retention_process_room st default_lifetime now pid room_id policy s with
    | none => none
    | some s1 => retention_sweep_go st default_lifetime now rest s1

/-- Models purge_history_for_rooms_in_range (lines 100-187): compute the
include-null flag, query storage for the rooms in the job range, and process
each returned room in turn.  pids supplies the fresh purge id generated for
each processed room. -/
def purge_history_for_rooms_in_range (st : RetentionStorage)
    (default_lifetime : Option Int) (now : Int) (pids : List PurgeId)
    (min_ms max_ms : Option Int) (s : HState) : Option HState :=
  let include_null := include_null_calc default_lifetime min_ms max_ms
  let rooms := st.get_rooms_for_retention_period_in_range min_ms max_ms include_null
  retention_sweep_go st default_lifetime now (rooms.zip pids) s

/-- Token that the specification text prescribes for a retention purge: it
says the storage collaborator delivers the triple in the order
(topological, stream, eventId) and the token is t<topological>-<stream>,
hence built from the first and second components in that order. -/
def spec_retention_token (r : Int × Int × String) : String :=
  "t" ++ toString r.1 ++ "-" ++ toString r.2.1

/-- Per-room state of the reader/writer lock.  Modelled from the spec:
the ReadWriteLock class lives in synapse/util/async_helpers.py, which is not
under src/; spec section 4.1 describes multiple concurrent readers, a writer
that waits for all readers and excludes everything while held, and
independent locks per room.  The writer fairness queue of the spec is not
needed by any claim and is omitted. -/
structure RWLockState where
  readers : Nat
  writer : Bool
  deriving DecidableEq, Repr

/-- State of a room whose lock was never touched: no readers, no writer. -/
def emptyLock : RWLockState := ⟨0, false⟩

/-- Registry of per-room lock states; rooms not present are unlocked. -/
abbrev LockRegistry := List (RoomId × RWLockState)

/-- Current lock state of a room; first match wins, so consing models an
update. -/
def getLock : LockRegistry → RoomId → RWLockState
  | [], _ => emptyLock
  | (r, st) :: rest, q => if r = q then st else getLock rest q

/-- Update the lock state of one room. -/
def setLock (g : LockRegistry) (r : RoomId) (st : RWLockState) : LockRegistry :=
  (r, st) :: g

/-- Lock acquisition and release events, each scoped to one room. -/
inductive LockOp where
  | acquireRead (room : RoomId)
  | acquireWrite (room : RoomId)
  | releaseRead (room : RoomId)
  | releaseWrite (room : RoomId)
  deriving DecidableEq, Repr

/-- Room an operation is scoped to. -/
def LockOp.room : LockOp → RoomId
  | .acquireRead r => r
  | .acquireWrite r => r
  | .releaseRead r => r
  | .releaseWrite r => r

/-- Modelled from the spec: one step of the reader/writer lock.  none means
the acquisition blocks (it is not granted in the current state).  A read is
granted whenever no writer holds the room's lock; a write is granted only
when the room has no readers and no writer. -/
def applyLockOp (g : LockRegistry) : LockOp → Option LockRegistry
  | .acquireRead r =>
    if (getLock g r).writer then none
    else some (setLock g r ⟨(getLock g r).readers + 1, (getLock g r).writer⟩)
  | .acquireWrite r =>
    if (getLock g r).writer ∨ (getLock g r).readers ≠ 0 then none
    else some (setLock g r ⟨(getLock g r).readers, true⟩)
  | .releaseRead r =>
    some (setLock g r ⟨(getLock g r).readers - 1, (getLock g r).writer⟩)
  | .releaseWrite r =>
    some (setLock g r ⟨(getLock g r).readers, false⟩)

/-- Lock acquisition performed by the internal purge routine (line 235) and
by purge_room (line 269): a write acquisition on the room being purged. -/
def purge_write_lock_op (room : RoomId) : LockOp := LockOp.acquireWrite room

/-- Lock acquisition performed by get_messages (line 321): a read
acquisition on the room being paginated. -/
def get_messages_read_lock_op (room : RoomId) : LockOp := LockOp.acquireRead room

/-- Parsed room stream token: models synapse.types.RoomStreamToken, whose
string forms are t<topological>-<stream> and s<stream>. -/
structure RoomStreamTok where
  topological : Option Int
  stream : Int
  deriving DecidableEq, Repr

/-- Serialization of a room stream token, models str(RoomStreamToken). -/
def RoomStreamTok.toStr (t : RoomStreamTok) : String :=
  match t.topological with
  | some p => "t" ++ toString p ++ "-" ++ toString t.stream
  | none => "s" ++ toString t.stream

/-- Digit run to a natural number; none on a non-digit. -/
def digitsToNatAux : List Char → Nat → Option Nat
  | [], acc => some acc
  | c :: cs, acc =>
    if c.isDigit then digitsToNatAux cs (acc * 10 + (c.toNat - 48)) else none

/-- Models Python int() on a token component: an optional leading minus sign
followed by at least one digit. -/
def strToInt : List Char → Option Int
  | [] => none
  | c :: rest =>
    if c = Char.ofNat 45 then
      match rest with
      | [] => none
      | _ => Option.map (fun n => -(n : Int)) (digitsToNatAux rest 0)
    else
      Option.map (fun n => (n : Int)) (digitsToNatAux (c :: rest) 0)

/-- Split at the first dash, models Python split on a dash with maxsplit 1;
none when no dash occurs. -/
def splitFirstDash : List Char → Option (List Char × List Char)
  | [] => none
  | c :: cs =>
    if c = Char.ofNat 45 then some ([], cs)
    else Option.map (fun p => (c :: p.1, p.2)) (splitFirstDash cs)

/-- Models RoomStreamToken.parse: the t<topo>-<stream> and s<stream> forms
parse, anything else is rejected (the collaborator raises a SynapseError). -/
def RoomStreamTok.parse (s : String) : Option RoomStreamTok :=
  match s.toList with
  | [] => none
  | c :: rest =>
    if c = Char.ofNat 116 then
      match splitFirstDash rest with
      | none => none
      | some (a, b) =>
        match strToInt a, strToInt b with
        | some ta, some sb => some ⟨some ta, sb⟩
        | _, _ => none
    else if c = Char.ofNat 115 then
      Option.map (fun n => RoomStreamTok.mk none n) (strToInt rest)
    else none

/-- Whole-stream pagination token: models synapse.types.StreamToken as used
here, a room_key component plus the remaining stream positions, with
copy_and_replace on room_key modelled as a field update. -/
structure StreamTok where
  room_key : String
  rest : String
  deriving DecidableEq, Repr

/-- Pagination configuration handed to get_messages: models
synapse.api.streams.PaginationConfig. -/
structure PaginCfg where
  from_token : Option StreamTok
  to_token : Option StreamTok
  direction : String
  limit : Nat
  deriving DecidableEq, Repr

/-- Per-source slice of the pagination config: models the SourceConfig
returned by PaginationConfig.get_source_config("room"). -/
structure SourceConfig where
  from_key : String
  to_key : Option String
  direction : String
  limit : Nat
  deriving DecidableEq, Repr

/-- Modelled from the spec: PaginationConfig.get_source_config lives outside
src/; the room source config carries the room component of the config's
tokens together with its direction and limit (spec section 4.5 step 5 reads
with fromKey, toKey, direction and limit). -/
def get_source_config (pc : PaginCfg) : SourceConfig :=
  { from_key := (pc.from_token.map (fun t => t.room_key)).getD "",
    to_key := pc.to_token.map (fun t => t.room_key),
    direction := pc.direction,
    limit := pc.limit }

/-- Room event as the pagination path sees it: its id, sender, and its
topological and stream orderings. -/
structure Event where
  event_id : String
  sender : String
  topological : Int
  stream : Int
  deriving DecidableEq, Repr

/-- Client-supplied event filter: its filtering action on a page and its
lazy_load_members flag. -/
structure EvFilter where
  filt : List Event → List Event
  lazy_load_members : Bool

/-- Membership.LEAVE from synapse.api.constants. -/
def Membership_LEAVE : String := "leave"

/-- EventTypes.Member from synapse.api.constants. -/
def EventTypes_Member : String := "m.room.member"

/-- Collaborators consumed by get_messages: the event-source current token,
the auth check (which raises when the requester may not read the room, and
otherwise yields the membership and member event id), the storage reads, the
visibility filter, state resolution for lazy member loading, and the client
serializer.  maybe_backfill is best-effort with no observable return value
and is not modelled. -/
structure GMEnv where
  get_current_token_for_pagination : StreamTok
  check_in_room_or_world_readable :
    RoomId → String → Except SynError (Option String × Option String)
  get_max_topological_token : RoomId → Int → Int
  get_topological_token_for_event : String → Int × Int
  paginate_room_events :
    RoomId → String → Option String → String → Nat → Option EvFilter →
      List Event × String
  filter_events_for_client : String → List Event → Bool → List Event
  get_state_ids_for_event : String → List (String × String) → List String
  get_events : List String → List Event
  serialize_events : List Event → List Event

/-- Models lines 330-335: the maximum topological position for a backward
read.  Line 330 tests the token's topological component with Python
truthiness, so both a missing component and a zero component are falsy and
fall back to the storage resolution at the token's stream position; only a
non-zero component is used directly. -/
def resolve_max_topo (env : GMEnv) (room_id : RoomId) (rt : RoomStreamTok) : Int :=
  match rt.topological with
  | some t =>
    if t = 0 then env.get_max_topological_token room_id rt.stream else t
  | none => env.get_max_topological_token room_id rt.stream

/-- From token get_messages starts from: the caller's token when supplied,
else the current pagination token installed on line 308. -/
def initial_from_token (env : GMEnv) (pc : PaginCfg) : StreamTok :=
  match pc.from_token with
  | some t => t
  | none => env.get_current_token_for_pagination

/-- Room key get_messages starts from: the room component of the initial
from token (lines 305-311). -/
def initial_room_key (env : GMEnv) (pc : PaginCfg) : String :=
  (initial_from_token env pc).room_key

/-- Intermediate state of a get_messages call after the token and lock-side
preparation (lines 303-350): the mutated pagination config, the definite
from token it now holds, the parsed room token, the (possibly clamped)
source config the read will use, and the requester's membership data. -/
structure PrePage where
  pc : PaginCfg
  ft : StreamTok
  room_token : RoomStreamTok
  source_config : SourceConfig
  membership : Option String
  member_event_id : Option String
  deriving DecidableEq, Repr

/-- Models lines 303-350 of get_messages: resolve and normalize the from
token (overwriting pagin_config.from_token in place), derive the room source
config, run the auth check, and on a backward read resolve the maximum
topological position and clamp the read cursor to the leave token of a
departed requester when that token is topologically lower.  The read lock is
acquired before the auth check (line 321); the federation maybe_backfill
call (line 348) has no observable effect on this state.  A leave membership
with no member event id cannot arise from the auth collaborator; the source
would fail on it, modelled as a 500 error. -/
def get_messages_pre (env : GMEnv) (user_id : String) (room_id : RoomId)
    (pc0 : PaginCfg) : Except SynError PrePage :=
  let ft0 := initial_from_token env pc0
  match RoomStreamTok.parse ft0.room_key with
  | none => Except.error ⟨400, "Invalid token"⟩
  | some room_token =>
    let ft1 : StreamTok := { ft0 with room_key := room_token.toStr }
    let pc2 := { pc0 with from_token := some ft1 }
    let sc0 := get_source_config pc2
    match env.check_in_room_or_world_readable room_id user_id with
    | Except.error e => Except.error e
    | Except.ok (membership, member_event_id) =>
      if sc0.direction = "b" then
        let max_topo := resolve_max_topo env room_id room_token
        if membership = some Membership_LEAVE then
          match member_event_id with
          | none => Except.error ⟨500, "Internal server error"⟩
          | some eid =>
            let lv := env.get_topological_token_for_event eid
            let leave_token : RoomStreamTok := ⟨some lv.1, lv.2⟩
            let sc1 :=
              if lv.1 < max_topo then
                { sc0 with from_key := leave_token.toStr }
              else sc0
            Except.ok ⟨pc2, ft1, room_token, sc1, membership, member_event_id⟩
        else
          Except.ok ⟨pc2, ft1, room_token, sc0, membership, member_event_id⟩
      else
        Except.ok ⟨pc2, ft1, room_token, sc0, membership, member_event_id⟩

/-- Storage read performed by get_messages (lines 352-359), with the
arguments taken from the prepared source config. -/
def gm_page (env : GMEnv) (room_id : RoomId) (p : PrePage)
    (flt : Option EvFilter) : List Event × String :=
  env.paginate_room_events room_id p.source_config.from_key
    p.source_config.to_key p.source_config.direction p.source_config.limit flt

/-- Models lines 363-369: when the page is non-empty, apply the client event
filter and then the visibility filter, peeking exactly when no member event
id was resolved; an empty page is left as is. -/
def apply_filters (env : GMEnv) (user_id : String) (flt : Option EvFilter)
    (member_event_id : Option String) (events : List Event) : List Event :=
  if events.isEmpty then events
  else
    let events1 :=
      match flt with
      | some f => f.filt events
      | none => events
    env.filter_events_for_client user_id events1 member_event_id.isNone

/-- Result of a get_messages call: the chunk, the start and end tokens, and
the optional lazily loaded member state. -/
structure GMChunk where
  chunk : List Event
  start : StreamTok
  end_tok : StreamTok
  state : Option (List Event)
  deriving DecidableEq, Repr

/-- Models lines 352-412 of get_messages after the preparation: read the
page, build the next token from the storage next key, filter, return the
empty chunk when nothing remains, otherwise resolve lazy member state when
the filter asks for it and serialize.  The final pagination config and
source config are returned alongside, since the source mutates them in
place. -/
def get_messages_post (env : GMEnv) (user_id : String) (room_id : RoomId)
    (flt : Option EvFilter) (p : PrePage) : PaginCfg × SourceConfig × GMChunk :=
  let page := gm_page env room_id p flt
  let next_token : StreamTok := { p.ft with room_key := page.2 }
  let events := apply_filters env user_id flt p.member_event_id page.1
  if events.isEmpty then
    (p.pc, p.source_config,
      { chunk := [], start := p.ft, end_tok := next_token, state := none })
  else
    let state :=
      match flt with
      | some f =>
        if f.lazy_load_members then
          match events with
          | [] => none
          | e0 :: _ =>
            let state_filter :=
              events.map (fun (e : Event) => (EventTypes_Member, e.sender))
            let state_ids := env.get_state_ids_for_event e0.event_id state_filter
            if state_ids.isEmpty then none
            else
              let sevs := env.get_events state_ids
              if sevs.isEmpty then none else some sevs
        else none
      | none => none
    (p.pc, p.source_config,
      { chunk := env.serialize_events events, start := p.ft,
        end_tok := next_token, state := state.map env.serialize_events })

/-- Models get_messages (lines 283-412) end to end: the preparation followed
by the read-and-respond phase. -/
def get_messages (env : GMEnv) (user_id : String) (room_id : RoomId)
    (pc0 : PaginCfg) (flt : Option EvFilter) :
    Except SynError (PaginCfg × SourceConfig × GMChunk) :=
  (get_messages_pre env user_id room_id pc0).map
    (get_messages_post env user_id room_id flt)

/-- Storage collaborator interface used by purge_room: get_room_version
(none models the room being unknown, on which the storage layer raises),
is_host_joined, and the outcome of the whole-room purge primitive. -/
structure PurgeRoomStorage where
  get_room_version : RoomId → Option String
  is_host_joined : RoomId → String → Bool
  purge_room_result : RoomId → Except SynError Unit

/-- Models purge_room (lines 267-281): under the room's write lock, check
the room is known (the storage lookup raises otherwise), fail with a 400
error if any local user is still joined, and otherwise delegate to the
storage primitive that deletes the whole room.  The boolean records whether
that primitive was invoked. -/
def purge_room (st : PurgeRoomStorage) (server_name : String)
    (room_id : RoomId) : Except SynError Unit × Bool :=
  match st.get_room_version room_id with
  | none => (Except.error ⟨404, "Could not find room " ++ room_id⟩, false)
  | some _ =>
    if st.is_host_joined room_id server_name then
      (Except.error ⟨400, "Users are still joined to this room"⟩, false)
    else
      (st.purge_room_result room_id, true)

/-- Empty handler state, used for concrete evaluations. -/
def hstate0 : HState := ⟨[], [], [], []⟩

/-- Concrete retention storage: one room with a 10 ms policy, whose first
event at or after any stream ordering has stream ordering 5, topological
ordering 7 and id dollar-e. -/
def cexStorage : RetentionStorage :=
  { get_rooms_for_retention_period_in_range := fun _ _ _ => [("!r:x", some 10)],
    find_first_stream_ordering_after_ts := fun _ => 0,
    get_room_event_after_stream_ordering := fun _ _ => some (5, 7, "$e") }

/-- Handler state after the retention sweep processes the room of
cexStorage starting from the empty state. -/
def cexS2 : HState :=
  ⟨[("p1", PStatus.active)], [], [], [⟨"p1", "!r:x", "t7-5", true⟩]⟩

/-- Concrete purge_room storage: every room is known at version 5, no local
user is joined anywhere, and the whole-room purge primitive succeeds. -/
def witPRStorage : PurgeRoomStorage :=
  { get_room_version := fun _ => some "5",
    is_host_joined := fun _ _ => false,
    purge_room_result := fun _ => Except.ok () }

/-- Concrete pagination environment: the requester has left the room with
leave event dollar-l at topological position 3, the storage page is always
empty with next key s0, and the filters are identities. -/
def witEnv : GMEnv :=
  { get_current_token_for_pagination := ⟨"s0", "g0"⟩,
    check_in_room_or_world_readable :=
      fun _ _ => Except.ok (some "leave", some "$l"),
    get_max_topological_token := fun _ _ => 0,
    get_topological_token_for_event := fun _ => (3, 3),
    paginate_room_events := fun _ _ _ _ _ _ => ([], "s0"),
    filter_events_for_client := fun _ evs _ => evs,
    get_state_ids_for_event := fun _ _ => [],
    get_events := fun _ => [],
    serialize_events := fun evs => evs }

/-- Concrete pagination config: backward read from token t5-5. -/
def witPc : PaginCfg :=
  { from_token := some ⟨"t5-5", "x"⟩, to_token := none,
    direction := "b", limit := 10 }

/-- Prepared state that get_messages_pre yields for witEnv and witPc: the
leave token t3-3 is topologically below the maximum 5, so the read cursor is
clamped to it. -/
def witP : PrePage :=
  { pc := witPc, ft := ⟨"t5-5", "x"⟩, room_token := ⟨some 5, 5⟩,
    source_config := ⟨"t3-3", none, "b", 10⟩,
    membership := some "leave", member_event_id := some "$l" }

/-! Helper lemmas about the purge status table. -/

theorem statusLookup_set_self (l : List (PurgeId × PStatus)) (pid : PurgeId)
    (st : PStatus) :
    statusLookup (set_purge_status l pid st) pid =
      Option.map (fun _ => st) (statusLookup l pid) := by
  induction l with
  | nil => rfl
  | cons e rest ih =>
    obtain ⟨p, v⟩ := e
    simp only [set_purge_status]
    by_cases h : p = pid
    · rw [if_pos h]
      subst h
      simp [statusLookup]
    · rw [if_neg h]
      simp [statusLookup, h, ih]

theorem statusLookup_set_ne (l : List (PurgeId × PStatus)) (pid q : PurgeId)
    (st : PStatus) (h : q ≠ pid) :
    statusLookup (set_purge_status l pid st) q = statusLookup l q := by
  induction l with
  | nil => rfl
  | cons e rest ih =>
    obtain ⟨p, v⟩ := e
    simp only [set_purge_status]
    by_cases hp : p = pid
    · rw [if_pos hp]
      subst hp
      have hq : p ≠ q := fun hqq => h hqq.symm
      simp [statusLookup, hq, ih]
    · rw [if_neg hp]
      by_cases hq : p = q
      · subst hq
        simp [statusLookup]
      · simp [statusLookup, hq, ih]

theorem statusLookup_remove_self (l : List (PurgeId × PStatus)) (pid : PurgeId) :
    statusLookup (purge_table_remove l pid) pid = none := by
  induction l with
  | nil => rfl
  | cons e rest ih =>
    obtain ⟨p, v⟩ := e
    by_cases h : p = pid
    · subst h
      simp [purge_table_remove, ih]
    · simp [purge_table_remove, statusLookup, h, ih]

/-- C2: for every configured default lifetime D and every retention job
window (min, max], the include-null flag computed on lines 120-131 is true
iff NOT (min is set and D ≤ min) and NOT (max is set and D > max); when no
default is configured the flag is false. -/
theorem C2_include_null_iff (D : Int) (min_ms max_ms : Option Int) :
    (include_null_calc (some D) min_ms max_ms = true ↔
      (¬ ∃ m, min_ms = some m ∧ D ≤ m) ∧ ¬ ∃ mx, max_ms = some mx ∧ D > mx) ∧
    include_null_calc none min_ms max_ms = false := by
  refine ⟨?_, rfl⟩
  cases min_ms with
  | none =>
    cases max_ms with
    | none => simp [include_null_calc]
    | some mx => by_cases hx : mx < D <;> simp [include_null_calc, hx]
  | some m =>
    cases max_ms with
    | none => by_cases hm : m ≥ D <;> simp [include_null_calc, hm]
    | some mx =>
      by_cases hm : m ≥ D <;> by_cases hx : mx < D <;>
        simp [include_null_calc, hm, hx]

/-- C4: start_purge_history raises a conflict error exactly when the room is
in the in-progress purge set; on that error nothing is mutated and no purge
is dispatched; otherwise it creates an Active status entry under the fresh
purge id, dispatches the purge, and returns that id. -/
theorem C4_start_purge_conflict (s : HState) (pid : PurgeId)
    (room token : String) (dle : Bool) :
    ((∃ e, (start_purge_history s pid room token dle).1 = Except.error e) ↔
      room ∈ s.in_progress) ∧
    (room ∈ s.in_progress →
      start_purge_history s pid room token dle =
        (Except.error ⟨400, "History purge already in progress for " ++ room⟩, s)) ∧
    (room ∉ s.in_progress →
      (start_purge_history s pid room token dle).1 = Except.ok pid ∧
      statusOf (start_purge_history s pid room token dle).2 pid =
        some PStatus.active ∧
      (start_purge_history s pid room token dle).2.in_progress = s.in_progress ∧
      (start_purge_history s pid room token dle).2.scheduled = s.scheduled ∧
      (start_purge_history s pid room token dle).2.dispatched =
        s.dispatched ++ [⟨pid, room, token, dle⟩]) := by
  by_cases h : room ∈ s.in_progress <;>
    simp [start_purge_history, h, statusOf, statusLookup]

/-- Witness for C4: from the empty handler state, starting a purge returns
the fresh id and installs an Active status entry. -/
theorem C4_witness :
    (start_purge_history hstate0 "p1" "!r:x" "t1-1" false).1 = Except.ok "p1" ∧
    statusOf (start_purge_history hstate0 "p1" "!r:x" "t1-1" false).2 "p1" =
      some PStatus.active := by
  have h := (C4_start_purge_conflict hstate0 "p1" "!r:x" "t1-1" false).2.2
    (by simp [hstate0])
  exact ⟨h.1, h.2.1⟩

/-- C5: purge_room fails with an error when the room is unknown, fails with
the precondition error when a local user is still joined, performs no
deletion in either failure case, and otherwise invokes the whole-room purge
primitive and returns exactly its outcome. -/
theorem C5_purge_room_cases (st : PurgeRoomStorage) (server_name room : String) :
    (st.get_room_version room = none →
      purge_room st server_name room =
        (Except.error ⟨404, "Could not find room " ++ room⟩, false)) ∧
    (∀ v, st.get_room_version room = some v →
      st.is_host_joined room server_name = true →
      purge_room st server_name room =
        (Except.error ⟨400, "Users are still joined to this room"⟩, false)) ∧
    (∀ v, st.get_room_version room = some v →
      st.is_host_joined room server_name = false →
      purge_room st server_name room = (st.purge_room_result room, true)) := by
  refine ⟨?_, ?_, ?_⟩
  · intro h
    simp [purge_room, h]
  · intro v hv hj
    simp [purge_room, hv, hj]
  · intro v hv hj
    simp [purge_room, hv, hj]

/-- Witness for C5: a known room with no joined local users is purged and
the call succeeds. -/
theorem C5_witness :
    purge_room witPRStorage "srv" "!r:x" = (Except.ok (), true) :=
  (C5_purge_room_cases witPRStorage "srv" "!r:x").2.2 "5" rfl rfl

/-- C9: a retention-dispatched purge always carries delete_local_events
True, while start_purge_history dispatches with the caller's flag, whose
default value is False. -/
theorem C9_delete_local_flags (st : RetentionStorage)
    (default_lifetime : Option Int) (now : Int) (pid : PurgeId) (room : RoomId)
    (policy : Option Int) (s s2 : HState)
    (h : retention_process_room st default_lifetime now pid room policy s =
      some s2) :
    (s2.dispatched = s.dispatched ∨
      ∃ tok, s2.dispatched = s.dispatched ++ [⟨pid, room, tok, true⟩]) ∧
    (∀ (pid2 : PurgeId) (room2 tok2 : String) (dle : Bool),
      (start_purge_history s pid2 room2 tok2 dle).2.dispatched = s.dispatched ∨
      (start_purge_history s pid2 room2 tok2 dle).2.dispatched =
        s.dispatched ++ [⟨pid2, room2, tok2, dle⟩]) ∧
    (∀ (s3 : HState) (pid3 : PurgeId) (room3 tok3 : String),
      start_purge_history s3 pid3 room3 tok3 =
        start_purge_history s3 pid3 room3 tok3 false) := by
  refine ⟨?_, ?_, fun _ _ _ _ => rfl⟩
  · unfold retention_process_room at h
    split at h
    · cases h
      exact Or.inl rfl
    · cases heff : effective_max_lifetime default_lifetime policy with
      | none =>
        simp only [heff] at h
        exact (Option.noConfusion h)
      | some L =>
        simp only [heff] at h
        cases hev : st.get_room_event_after_stream_ordering room
            (st.find_first_stream_ordering_after_ts (now - L)) with
        | none =>
          simp only [hev] at h
          cases h
          exact Or.inl rfl
        | some r =>
          obtain ⟨stream, topo, eid⟩ := r
          simp only [hev] at h
          cases h
          exact Or.inr ⟨_, rfl⟩
  · intro pid2 room2 tok2 dle
    by_cases hin : room2 ∈ s.in_progress <;> simp [start_purge_history, hin]

/-- Witness for C9: the retention sweep on the concrete storage dispatches
one purge, with delete_local_events True. -/
theorem C9_witness :
    cexS2.dispatched = hstate0.dispatched ∨
      ∃ tok, cexS2.dispatched = hstate0.dispatched ++ [⟨"p1", "!r:x", tok, true⟩] :=
  (C9_delete_local_flags cexStorage (some 10) 100 "p1" "!r:x" (some 10)
    hstate0 cexS2 (by decide)).1

/-- C1 (amended): for a room processed by the retention sweep that is not
mid-purge, whose effective max lifetime resolves to L (its own policy value
or the configured default when that value is null), and for which storage
finds a first event at or after the stream position resolved for the cutoff
now - L, the dispatched purge uses the token t<topological>-<stream> built
from the triple that storage delivers in the order (stream, topological,
eventId). -/
theorem C1_retention_purge_shape (st : RetentionStorage)
    (default_lifetime : Option Int) (now : Int) (pid : PurgeId) (room : RoomId)
    (policy : Option Int) (s : HState) (L stream topo : Int) (eid : String)
    (hrun : room ∉ s.in_progress)
    (heff : effective_max_lifetime default_lifetime policy = some L)
    (hev : st.get_room_event_after_stream_ordering room
      (st.find_first_stream_ordering_after_ts (now - L)) = some (stream, topo, eid)) :
    retention_process_room st default_lifetime now pid room policy s =
      some { s with
        purges_by_id := (pid, PStatus.active) :: s.purges_by_id,
        dispatched := s.dispatched ++
          [⟨pid, room, "t" ++ toString topo ++ "-" ++ toString stream, true⟩] } := by
  simp [retention_process_room, hrun, heff, hev]

/-- Witness for C1: the amended statement evaluated on the concrete storage,
where the delivered triple is (5, 7, eventId) and the token is t7-5. -/
theorem C1_witness :
    retention_process_room cexStorage (some 10) 100 "p1" "!r:x" (some 10)
      hstate0 =
      some { hstate0 with
        purges_by_id := ("p1", PStatus.active) :: hstate0.purges_by_id,
        dispatched := hstate0.dispatched ++
          [⟨"p1", "!r:x",
            "t" ++ toString (7 : Int) ++ "-" ++ toString (5 : Int), true⟩] } :=
  C1_retention_purge_shape cexStorage (some 10) 100 "p1" "!r:x" (some 10)
    hstate0 10 5 7 "$e" (by simp [hstate0]) rfl rfl

/-- Counterexample for C1 as stated: on the concrete storage the sweep
dispatches the token t7-5, while reading the delivered triple (5, 7, ...)
in the order (topological, stream, eventId) prescribed by the claim would
give the token t5-7. -/
theorem C1_counterexample :
    (retention_process_room cexStorage (some 10) 100 "p1" "!r:x" (some 10)
        hstate0).map (fun s => s.dispatched.map (fun l => l.token)) =
      some ["t7-5"] ∧
    cexStorage.get_room_event_after_stream_ordering "!r:x"
      (cexStorage.find_first_stream_ordering_after_ts (100 - 10)) =
        some (5, 7, "$e") ∧
    spec_retention_token (5, 7, "$e") = "t5-7" ∧
    ("t7-5" : String) ≠ "t5-7" :=
  ⟨by decide, rfl, by decide, by decide⟩

theorem getLock_setLock_self (g : LockRegistry) (r : RoomId) (st : RWLockState) :
    getLock (setLock g r st) r = st := by
  simp [setLock, getLock]

theorem getLock_setLock_ne (g : LockRegistry) (r r2 : RoomId) (st : RWLockState)
    (h : r2 ≠ r) : getLock (setLock g r st) r2 = getLock g r2 := by
  have h2 : r ≠ r2 := fun hh => h hh.symm
  simp [setLock, getLock, h2]

/-- C3: a purge status record starts Active; the single run of the purge
routine moves it exactly once, to Complete when the storage purge succeeds
and to Failed when it raises, and no run ever yields Active; the run
schedules the record's removal exactly 24 hours after the transition; the
scheduled clear removes it then, a firing at any other time leaves the state
untouched, and purge operations under other purge ids never change the
record. -/
theorem C3_status_lifecycle (s0 : HState) (pid : PurgeId) (room : RoomId)
    (ok : Bool) (now t : Int)
    (hsched : ∀ u : Int, (u, pid) ∉ s0.scheduled) :
    statusOf (create_purge_status s0 pid) pid = some PStatus.active ∧
    statusOf (run_purge_history (create_purge_status s0 pid) pid room ok now)
        pid = some (if ok then PStatus.complete else PStatus.failed) ∧
    (if ok then PStatus.complete else PStatus.failed) ≠ PStatus.active ∧
    (∀ (s3 : HState) (room3 : RoomId) (ok3 : Bool) (now3 : Int),
      statusOf (run_purge_history s3 pid room3 ok3 now3) pid ≠
        some PStatus.active) ∧
    (now + 24 * 3600, pid) ∈
      (run_purge_history (create_purge_status s0 pid) pid room ok now).scheduled ∧
    (t ≠ now + 24 * 3600 →
      fire_clear (run_purge_history (create_purge_status s0 pid) pid room ok now)
          t pid =
        run_purge_history (create_purge_status s0 pid) pid room ok now) ∧
    statusOf (fire_clear
        (run_purge_history (create_purge_status s0 pid) pid room ok now)
        (now + 24 * 3600) pid) pid = none ∧
    (∀ (pid2 : PurgeId) (room2 : RoomId) (ok2 : Bool) (now2 : Int), pid2 ≠ pid →
      statusOf (run_purge_history
          (run_purge_history (create_purge_status s0 pid) pid room ok now)
          pid2 room2 ok2 now2) pid =
        statusOf (run_purge_history (create_purge_status s0 pid) pid room ok now)
          pid ∧
      statusOf (create_purge_status
          (run_purge_history (create_purge_status s0 pid) pid room ok now) pid2)
          pid =
        statusOf (run_purge_history (create_purge_status s0 pid) pid room ok now)
          pid) := by
  refine ⟨?_, ?_, ?_, ?_, ?_, ?_, ?_, ?_⟩
  · simp [create_purge_status, statusOf, statusLookup]
  · simp only [run_purge_history, create_purge_status, statusOf]
    rw [statusLookup_set_self]
    simp [statusLookup]
  · cases ok <;> simp
  · intro s3 room3 ok3 now3
    simp only [run_purge_history, statusOf, statusLookup_set_self]
    cases statusLookup s3.purges_by_id pid <;> cases ok3 <;> simp
  · simp [run_purge_history]
  · intro ht
    have hmem : (t, pid) ∉
        (run_purge_history (create_purge_status s0 pid) pid room ok now).scheduled := by
      simp only [run_purge_history, create_purge_status, List.mem_cons]
      rintro (heq | hmem2)
      · exact ht (congrArg Prod.fst heq)
      · exact hsched t hmem2
    simp [fire_clear, hmem]
  · have hmem : (now + 24 * 3600, pid) ∈
        (run_purge_history (create_purge_status s0 pid) pid room ok now).scheduled := by
      simp [run_purge_history]
    unfold fire_clear
    rw [if_pos hmem]
    exact statusLookup_remove_self _ _
  · intro pid2 room2 ok2 now2 hne
    constructor
    · simp only [run_purge_history, statusOf]
      rw [statusLookup_set_ne _ _ _ _ (Ne.symm hne)]
    · simp only [create_purge_status, statusOf, statusLookup]
      rw [if_neg (fun hh => hne hh)]

/-- Witness for C3: a successful purge from the empty state ends Complete,
and the clear scheduled 24 hours later removes the record. -/
theorem C3_witness :
    statusOf (run_purge_history (create_purge_status hstate0 "p1") "p1" "!r:x"
        true 0) "p1" = some PStatus.complete ∧
    statusOf (fire_clear
        (run_purge_history (create_purge_status hstate0 "p1") "p1" "!r:x" true 0)
        (0 + 24 * 3600) "p1") "p1" = none := by
  have h := C3_status_lifecycle hstate0 "p1" "!r:x" true 0 5 (by simp [hstate0])
  exact ⟨by simpa using h.2.1, h.2.2.2.2.2.2.1⟩

/-- C8: while a purge holds the write lock on a room, no get_messages read
acquisition on that room is granted; a write acquisition is not granted while
any reader holds the room; a read acquisition when no writer holds always
succeeds and stacks readers, so concurrent reads may overlap; and lock state
and grant decisions for one room are independent of every other room.
Modelled from the spec: the ReadWriteLock implementation lives outside src/. -/
theorem C8_room_lock_exclusion (g : LockRegistry) (r r2 : RoomId) :
    ((getLock g r).writer = true →
      applyLockOp g (get_messages_read_lock_op r) = none) ∧
    (0 < (getLock g r).readers →
      applyLockOp g (purge_write_lock_op r) = none) ∧
    ((getLock g r).writer = false →
      ∃ g2, applyLockOp g (get_messages_read_lock_op r) = some g2 ∧
        (getLock g2 r).readers = (getLock g r).readers + 1 ∧
        (getLock g2 r).writer = false) ∧
    (∀ (op : LockOp) (g2 : LockRegistry), op.room = r → r2 ≠ r →
      applyLockOp g op = some g2 → getLock g2 r2 = getLock g r2) ∧
    (∀ (op : LockOp) (g1 : LockRegistry), op.room = r →
      getLock g1 r = getLock g r →
      (applyLockOp g1 op).isSome = (applyLockOp g op).isSome) := by
  refine ⟨?_, ?_, ?_, ?_, ?_⟩
  · intro hw
    simp [applyLockOp, get_messages_read_lock_op, hw]
  · intro hr
    have : (getLock g r).writer = true ∨ (getLock g r).readers ≠ 0 :=
      Or.inr (by omega)
    simp only [applyLockOp, purge_write_lock_op]
    rw [if_pos (by omega)]
  · intro hw
    refine ⟨setLock g r ⟨(getLock g r).readers + 1, (getLock g r).writer⟩,
      by simp [applyLockOp, get_messages_read_lock_op, hw],
      by rw [getLock_setLock_self], by rw [getLock_setLock_self]; exact hw⟩
  · intro op g2 hop hne happ
    cases op with
    | acquireRead rr =>
      simp only [LockOp.room] at hop
      subst hop
      simp only [applyLockOp] at happ
      by_cases hw : (getLock g rr).writer
      · rw [if_pos hw] at happ
        exact Option.noConfusion happ
      · rw [if_neg hw] at happ
        cases happ
        exact getLock_setLock_ne g rr r2 _ hne
    | acquireWrite rr =>
      simp only [LockOp.room] at hop
      subst hop
      simp only [applyLockOp] at happ
      by_cases hw : (getLock g rr).writer = true ∨ (getLock g rr).readers ≠ 0
      · rw [if_pos (by tauto)] at happ
        exact Option.noConfusion happ
      · rw [if_neg (by tauto)] at happ
        cases happ
        exact getLock_setLock_ne g rr r2 _ hne
    | releaseRead rr =>
      simp only [LockOp.room] at hop
      subst hop
      simp only [applyLockOp] at happ
      cases happ
      exact getLock_setLock_ne g rr r2 _ hne
    | releaseWrite rr =>
      simp only [LockOp.room] at hop
      subst hop
      simp only [applyLockOp] at happ
      cases happ
      exact getLock_setLock_ne g rr r2 _ hne
  · intro op g1 hop hst
    cases op with
    | acquireRead rr =>
      simp only [LockOp.room] at hop
      subst hop
      simp only [applyLockOp, hst]
      by_cases hw : (getLock g rr).writer = true <;> simp [hw]
    | acquireWrite rr =>
      simp only [LockOp.room] at hop
      subst hop
      simp only [applyLockOp, hst]
      by_cases hw : (getLock g rr).writer = true ∨ ¬(getLock g rr).readers = 0 <;>
        simp [hw]
    | releaseRead rr =>
      simp [applyLockOp]
    | releaseWrite rr =>
      simp [applyLockOp]

/-- Witness for C8: with a writer holding room a, a read acquisition on room
a is refused. -/
theorem C8_witness :
    applyLockOp [("!a", RWLockState.mk 0 true)] (get_messages_read_lock_op "!a") =
      none :=
  (C8_room_lock_exclusion [("!a", ⟨0, true⟩)] "!a" "!b").1 (by decide)

/-- Inversion of a successful get_messages preparation: the parse succeeded,
the from token stored back into the config is the initial token with its
room key re-serialized, and the source config keeps the config's direction. -/
theorem get_messages_pre_ok (env : GMEnv) (user_id : String) (room_id : RoomId)
    (pc0 : PaginCfg) (p : PrePage)
    (hpre : get_messages_pre env user_id room_id pc0 = Except.ok p) :
    ∃ rtok,
      RoomStreamTok.parse (initial_from_token env pc0).room_key = some rtok ∧
      p.ft = { initial_from_token env pc0 with room_key := rtok.toStr } ∧
      p.pc = { pc0 with from_token := some p.ft } ∧
      p.room_token = rtok ∧
      p.source_config.direction = pc0.direction := by
  unfold get_messages_pre at hpre
  cases hparse : RoomStreamTok.parse (initial_from_token env pc0).room_key with
  | none =>
    simp only [hparse] at hpre
    exact Except.noConfusion hpre
  | some rtok =>
    simp only [hparse] at hpre
    cases hchk : env.check_in_room_or_world_readable room_id user_id with
    | error e =>
      simp only [hchk] at hpre
      exact Except.noConfusion hpre
    | ok me =>
      obtain ⟨mem, mei⟩ := me
      simp only [hchk, get_source_config] at hpre
      by_cases hb : pc0.direction = "b"
      · rw [if_pos hb] at hpre
        by_cases hl : mem = some Membership_LEAVE
        · rw [if_pos hl] at hpre
          cases mei with
          | none =>
            simp only at hpre
            exact Except.noConfusion hpre
          | some eid =>
            simp only at hpre
            cases hpre
            refine ⟨rtok, rfl, rfl, rfl, rfl, ?_⟩
            split <;> rfl
        · rw [if_neg hl] at hpre
          cases hpre
          exact ⟨rtok, rfl, rfl, rfl, rfl, rfl⟩
      · rw [if_neg hb] at hpre
        cases hpre
        exact ⟨rtok, rfl, rfl, rfl, rfl, rfl⟩

/-- Both branches of the read-and-respond phase return the prepared config
and source config unchanged. -/
theorem get_messages_post_configs (env : GMEnv) (user_id : String)
    (room_id : RoomId) (flt : Option EvFilter) (p : PrePage) :
    (get_messages_post env user_id room_id flt p).1 = p.pc ∧
    (get_messages_post env user_id room_id flt p).2.1 = p.source_config := by
  unfold get_messages_post
  by_cases h : (apply_filters env user_id flt p.member_event_id
      (gm_page env room_id p flt).1).isEmpty <;>
    simp [h]

/-- C7: for a get_messages call whose storage page is empty or whose events
are all removed by the event and visibility filters, the call returns
normally with an empty chunk, start equal to the caller's original from
token normalized (its room key parsed and re-serialized), and end equal to
the token carrying the storage next key. -/
theorem C7_empty_chunk (env : GMEnv) (user_id : String) (room_id : RoomId)
    (pc0 : PaginCfg) (flt : Option EvFilter) (p : PrePage)
    (hpre : get_messages_pre env user_id room_id pc0 = Except.ok p)
    (hempty : apply_filters env user_id flt p.member_event_id
      (gm_page env room_id p flt).1 = []) :
    get_messages env user_id room_id pc0 flt =
      Except.ok (p.pc, p.source_config,
        { chunk := [], start := p.ft,
          end_tok := { p.ft with room_key := (gm_page env room_id p flt).2 },
          state := none }) ∧
    ∃ rt, RoomStreamTok.parse (initial_from_token env pc0).room_key = some rt ∧
      p.ft = { initial_from_token env pc0 with room_key := rt.toStr } := by
  constructor
  · unfold get_messages
    rw [hpre]
    simp only [Except.map]
    unfold get_messages_post
    simp only [hempty]
    simp
  · obtain ⟨rt, h1, h2, _⟩ := get_messages_pre_ok env user_id room_id pc0 p hpre
    exact ⟨rt, h1, h2⟩

/-- Witness for C7: the concrete environment returns an empty page, and the
call returns the empty chunk with the normalized start token and the
next-key end token. -/
theorem C7_witness :
    get_messages witEnv "@u:x" "!r:x" witPc none =
      Except.ok (witP.pc, witP.source_config,
        { chunk := [], start := witP.ft,
          end_tok := { witP.ft with room_key := (gm_page witEnv "!r:x" witP none).2 },
          state := none }) :=
  (C7_empty_chunk witEnv "@u:x" "!r:x" witPc none witP (by decide) (by decide)).1

/-- C10: get_messages overwrites the caller's pagination config in place:
the from token always ends up as the initial token with its room key parsed
and re-serialized (the current-position token is installed first when the
caller supplied none); for a backward read by a requester who has left, the
source config's from_key is overwritten with the leave token when that is
topologically lower than the resolved maximum; and the call returns exactly
these mutated values, never the originals. -/
theorem C10_config_mutation (env : GMEnv) (user_id : String) (room_id : RoomId)
    (pc0 : PaginCfg) (flt : Option EvFilter) (p : PrePage)
    (hpre : get_messages_pre env user_id room_id pc0 = Except.ok p) :
    (∃ rt, RoomStreamTok.parse (initial_from_token env pc0).room_key = some rt ∧
      p.pc.from_token =
        some { initial_from_token env pc0 with room_key := rt.toStr }) ∧
    (pc0.from_token = none →
      ∃ rt, RoomStreamTok.parse env.get_current_token_for_pagination.room_key =
          some rt ∧
        p.pc.from_token =
          some { env.get_current_token_for_pagination with
            room_key := rt.toStr }) ∧
    (∀ (eid : String) (rt : RoomStreamTok),
      pc0.direction = "b" →
      RoomStreamTok.parse (initial_from_token env pc0).room_key = some rt →
      env.check_in_room_or_world_readable room_id user_id =
        Except.ok (some Membership_LEAVE, some eid) →
      (env.get_topological_token_for_event eid).1 <
        resolve_max_topo env room_id rt →
      p.source_config.from_key =
        RoomStreamTok.toStr ⟨some (env.get_topological_token_for_event eid).1,
          (env.get_topological_token_for_event eid).2⟩) ∧
    (∀ out, get_messages env user_id room_id pc0 flt = Except.ok out →
      out.1 = p.pc ∧ out.2.1 = p.source_config) := by
  obtain ⟨rt0, hparse0, hft, hpc, hrt, hdirp⟩ :=
    get_messages_pre_ok env user_id room_id pc0 p hpre
  refine ⟨⟨rt0, hparse0, by rw [hpc, hft]⟩, ?_, ?_, ?_⟩
  · intro hnone
    have hini : initial_from_token env pc0 = env.get_current_token_for_pagination := by
      simp [initial_from_token, hnone]
    refine ⟨rt0, ?_, ?_⟩
    · rw [← hini]
      exact hparse0
    · rw [hpc, hft, hini]
  · intro eid rt hb hparse hauth hlt
    have hrteq : rt = rt0 := by
      rw [hparse0] at hparse
      exact (Option.some.inj hparse).symm
    subst hrteq
    unfold get_messages_pre at hpre
    simp only [hparse0, hauth, get_source_config] at hpre
    rw [if_pos (by simpa using hb)] at hpre
    rw [if_pos trivial] at hpre
    rw [if_pos hlt] at hpre
    cases hpre
    rfl
  · intro out hout
    unfold get_messages at hout
    rw [hpre] at hout
    simp only [Except.map] at hout
    cases hout
    exact get_messages_post_configs env user_id room_id flt p

/-- Witness for C10: on the concrete run, the returned from token is the
original token with its room key re-serialized. -/
theorem C10_witness :
    ∃ rt, RoomStreamTok.parse (initial_from_token witEnv witPc).room_key =
        some rt ∧
      witP.pc.from_token =
        some { initial_from_token witEnv witPc with room_key := rt.toStr } :=
  (C10_config_mutation witEnv "@u:x" "!r:x" witPc none witP (by decide)).1

/-- C6: on a backward get_messages read by a requester whose membership is
leave, the read cursor is replaced by the leave event's topological token
exactly when that token's topological component is strictly below the
resolved maximum topological position (resolved as on lines 330-335: the
token's own component when it is truthy, the storage maximum otherwise), and
is left unchanged otherwise; and under the storage collaborator's contract
that a backward read from a token never returns events topologically past it
(and that events at a stream position stay below the maximum topological
token resolved there), together with the leave token's topological ordering
being nonnegative as orderings are, no event of the loaded page lies
topologically past the departure point. -/
theorem C6_leave_clamp (env : GMEnv) (user_id : String) (room_id : RoomId)
    (pc0 : PaginCfg) (flt : Option EvFilter) (rtok : RoomStreamTok)
    (eid : String) (lt ls : Int)
    (hdir : pc0.direction = "b")
    (hparse : RoomStreamTok.parse (initial_from_token env pc0).room_key =
      some rtok)
    (hauth : env.check_in_room_or_world_readable room_id user_id =
      Except.ok (some Membership_LEAVE, some eid))
    (hleave : env.get_topological_token_for_event eid = (lt, ls))
    (hlt0 : 0 ≤ lt)
    (hread_t : ∀ (tp stm : Int) (tk : Option String) (lim : Nat)
      (f : Option EvFilter),
      ∀ e ∈ (env.paginate_room_events room_id
        (RoomStreamTok.toStr ⟨some tp, stm⟩) tk "b" lim f).1,
        e.topological ≤ tp)
    (hread_s : ∀ (stm : Int) (tk : Option String) (lim : Nat)
      (f : Option EvFilter),
      ∀ e ∈ (env.paginate_room_events room_id
        (RoomStreamTok.toStr ⟨none, stm⟩) tk "b" lim f).1,
        e.topological ≤ env.get_max_topological_token room_id stm) :
    ∃ p, get_messages_pre env user_id room_id pc0 = Except.ok p ∧
      (lt < resolve_max_topo env room_id rtok →
        p.source_config.from_key = RoomStreamTok.toStr ⟨some lt, ls⟩) ∧
      (¬ lt < resolve_max_topo env room_id rtok →
        p.source_config.from_key = rtok.toStr) ∧
      (∀ e ∈ (gm_page env room_id p flt).1, e.topological ≤ lt) := by
  have hcomp : get_messages_pre env user_id room_id pc0 =
      Except.ok (PrePage.mk
        ({ pc0 with
            from_token := some ({ initial_from_token env pc0 with
              room_key := rtok.toStr }) })
        ({ initial_from_token env pc0 with room_key := rtok.toStr })
        rtok
        (if lt < resolve_max_topo env room_id rtok then
          SourceConfig.mk (RoomStreamTok.toStr ⟨some lt, ls⟩)
            (Option.map (fun t => t.room_key) pc0.to_token) pc0.direction pc0.limit
        else
          SourceConfig.mk rtok.toStr
            (Option.map (fun t => t.room_key) pc0.to_token) pc0.direction pc0.limit)
        (some Membership_LEAVE) (some eid)) := by
    unfold get_messages_pre
    simp only [hparse, hauth, get_source_config]
    rw [if_pos (by simpa using hdir)]
    rw [if_pos trivial]
    simp only [hleave]
    simp
  refine ⟨_, hcomp, ?_, ?_, ?_⟩
  · intro h
    dsimp only
    rw [if_pos h]
  · intro h
    dsimp only
    rw [if_neg h]
  · intro e he
    simp only [gm_page] at he
    by_cases hc : lt < resolve_max_topo env room_id rtok
    · rw [if_pos hc] at he
      have he2 : e ∈ (env.paginate_room_events room_id
          (RoomStreamTok.toStr ⟨some lt, ls⟩)
          (Option.map (fun t => t.room_key) pc0.to_token) "b" pc0.limit flt).1 := by
        simpa [hdir] using he
      exact hread_t lt ls _ _ flt e he2
    · rw [if_neg hc] at he
      obtain ⟨rtop, rstm⟩ := rtok
      cases rtop with
      | some tp =>
        have he2 : e ∈ (env.paginate_room_events room_id
            (RoomStreamTok.toStr ⟨some tp, rstm⟩)
            (Option.map (fun t => t.room_key) pc0.to_token) "b" pc0.limit flt).1 := by
          simpa [hdir] using he
        have hbound := hread_t tp rstm _ _ flt e he2
        by_cases htp : tp = 0
        · omega
        · have hmax : resolve_max_topo env room_id ⟨some tp, rstm⟩ = tp := by
            simp [resolve_max_topo, htp]
          rw [hmax] at hc
          omega
      | none =>
        have hmax : resolve_max_topo env room_id ⟨none, rstm⟩ =
            env.get_max_topological_token room_id rstm := rfl
        rw [hmax] at hc
        have he2 : e ∈ (env.paginate_room_events room_id
            (RoomStreamTok.toStr ⟨none, rstm⟩)
            (Option.map (fun t => t.room_key) pc0.to_token) "b" pc0.limit flt).1 := by
          simpa [hdir] using he
        have := hread_s rstm _ _ flt e he2
        omega

/-- Witness for C6: the concrete run clamps the cursor to the leave token
t3-3, below the token maximum 5, and the (empty) page trivially stays below
the departure point. -/
theorem C6_witness :
    ∃ p, get_messages_pre witEnv "@u:x" "!r:x" witPc = Except.ok p ∧
      (3 < resolve_max_topo witEnv "!r:x" ⟨some 5, 5⟩ →
        p.source_config.from_key = RoomStreamTok.toStr ⟨some 3, 3⟩) ∧
      (¬ 3 < resolve_max_topo witEnv "!r:x" ⟨some 5, 5⟩ →
        p.source_config.from_key = RoomStreamTok.toStr ⟨some 5, 5⟩) ∧
      (∀ e ∈ (gm_page witEnv "!r:x" p none).1, e.topological ≤ 3) :=
  C6_leave_clamp witEnv "@u:x" "!r:x" witPc none ⟨some 5, 5⟩ "$l" 3 3 rfl
    (by decide) rfl rfl (by decide)
    (by
      intro tp stm tk lim f e he
      simp [witEnv] at he)
    (by
      intro stm tk lim f e he
      simp [witEnv] at he)
